import Mathlib

/-!
Shallow embedding of the YOLO11 inference service (app.py, models.py,
init_prompts.py) and proofs about its specified behavior.

Conventions of the embedding:
* Python floats are modelled as exact rationals.  Every concrete value
  appearing in the claims (0.8, 100.0, 40, 0.3, 0.55, ...) is exactly
  representable, and the one configuration product that matters for the
  load-shedding threshold (30 * 0.8) evaluates to exactly 24.0 in IEEE
  doubles, so the rational model agrees with the float code on every
  input the claims mention.
* Python truthiness on optional strings (used by the code in
  `if settings.API_KEY:`, `if req.image_base64:`, `if prompt_data.name:`
  and `if not frame_b64:`) is modelled by `truthyOpt`: `None` and the
  empty string are falsy, every other string is truthy.
* The relational store of prompts is modelled as a list of records in
  insertion order; the SQLAlchemy queries used by the CRUD handlers are
  first-match lookups over that list.
* The WebSocket handler is modelled as a per-message step function from
  the connection state (the `authenticated` flag) and an inbound message
  to the new state plus the ordered list of replies the server sends.
  The parts of the frame path that touch the outside world (base64
  decoding, model inference, the scene queue) are abstracted into a
  `FrameEnv` record describing their outcome for the message at hand;
  the reply structure of every branch follows the source exactly.
-/

namespace Yolo

/-- Truthiness of a Python `Optional[str]`: `None` and `""` are falsy. -/
def truthyOpt : Option String → Bool
  | none => false
  | some s => !(s == "")

/-- Configuration record (class `Settings` in app.py) with the source defaults.
Fields not needed by any claim are omitted. -/
structure Settings where
  YOLO_MODEL : String := "yolo11n.pt"
  API_KEY : Option String := none
  DEFAULT_IMGSZ : ℕ := 640
  DEFAULT_CONF : ℚ := 1/4
  DEFAULT_IOU : ℚ := 9/20
  MAX_FRAME_QUEUE : ℕ := 30
  MAX_FPS_SAMPLES : ℕ := 30
  FRAME_SKIP_THRESHOLD : ℚ := 100
  COLLAGE_SIZE : ℕ := 8
  FRAME_SAMPLING_INTERVAL : ℚ := 1
deriving Repr

/-- The process-wide settings object `settings = Settings()` (all defaults). -/
def settings : Settings := {}

/-! ## Performance counters (`_performance_stats`, `_update_performance_stats`) -/

/-- The process-wide counter dictionary `_performance_stats`. -/
structure PerfStats where
  total_frames : ℕ
  dropped_frames : ℕ
  avg_latency : ℚ
deriving DecidableEq, Repr

/-- Initial value of `_performance_stats`:
`{"total_frames": 0, "dropped_frames": 0, "avg_latency": 0.0}`. -/
def performanceStatsInit : PerfStats := ⟨0, 0, 0⟩

/-- Embedding of `_update_performance_stats(latency, dropped)` (app.py 304-311).
The counter `total_frames` is incremented first; on a non-dropped frame the
running average is recomputed with the incremented total as denominator. -/
def update_performance_stats (st : PerfStats) (latency : ℚ) (dropped : Bool) : PerfStats :=
  let total := st.total_frames + 1
  if dropped then
    { st with total_frames := total, dropped_frames := st.dropped_frames + 1 }
  else
    { st with total_frames := total,
              avg_latency := (st.avg_latency * ((total : ℚ) - 1) + latency) / (total : ℚ) }

/-! ## Frame sampler (`class FrameSampler`, app.py 101-125) -/

/-- State of `FrameSampler`: a sampling interval, the timestamp of the last
accepted sample (initialized to `0` in `__init__`), and the accumulated
frame samples (image copy, timestamp) in capture order.  The image payload
is opaque to every claim, so it is a type parameter. -/
structure FrameSampler (Img : Type) where
  interval : ℚ
  last_sample_time : ℚ
  collected_frames : List (Img × ℚ)
deriving Repr

/-- Embedding of `FrameSampler.__init__(interval)`. -/
def FrameSampler.init (Img : Type) (interval : ℚ) : FrameSampler Img :=
  ⟨interval, 0, []⟩

/-- Embedding of `FrameSampler.should_sample(current_time)`. -/
def FrameSampler.should_sample {Img : Type} (s : FrameSampler Img) (current_time : ℚ) : Bool :=
  current_time - s.last_sample_time ≥ s.interval

/-- Embedding of `FrameSampler.add_frame(image, timestamp)`: returns the
Python return value (`True` = accepted) together with the updated sampler.
`image.copy()` is the identity on the opaque image value. -/
def FrameSampler.add_frame {Img : Type} (s : FrameSampler Img) (image : Img) (timestamp : ℚ) :
    Bool × FrameSampler Img :=
  if s.should_sample timestamp then
    (true, { s with collected_frames := s.collected_frames ++ [(image, timestamp)],
                    last_sample_time := timestamp })
  else
    (false, s)

/-- Embedding of `FrameSampler.get_frames_for_collage(count)`: returns the
drained batch (empty if not enough frames) and the updated sampler. -/
def FrameSampler.get_frames_for_collage {Img : Type} (s : FrameSampler Img) (count : ℕ) :
    List (Img × ℚ) × FrameSampler Img :=
  if s.collected_frames.length ≥ count then
    (s.collected_frames.take count, { s with collected_frames := s.collected_frames.drop count })
  else
    ([], s)

/-! ## Load shedding (`_should_skip_frame`, app.py 294-302) -/

/-- Embedding of `_should_skip_frame(current_latency, queue_size)`:
skip when the queue depth exceeds `MAX_FRAME_QUEUE * 0.8` or the rolling
average latency exceeds `FRAME_SKIP_THRESHOLD`.  For the default
`MAX_FRAME_QUEUE = 30` the float product `30 * 0.8` is exactly `24.0`,
so the rational `4/5` model coincides with the source on the defaults. -/
def should_skip_frame (st : Settings) (current_latency : ℚ) (queue_size : ℕ) : Bool :=
  if (queue_size : ℚ) > (st.MAX_FRAME_QUEUE : ℚ) * (4/5) then true
  else if current_latency > st.FRAME_SKIP_THRESHOLD then true
  else false

/-! ## Detection result shaping (`_result_to_dict`, app.py 370-417) -/

/-- Corner-form absolute box, the `box_xyxy` dictionary. -/
structure BoxXYXY where
  x1 : ℚ
  y1 : ℚ
  x2 : ℚ
  y2 : ℚ
deriving DecidableEq, Repr

/-- Four-field `x, y, w, h` box dictionary, used both for the absolute
`box_xywh` field and for the normalized `box_norm_xywh` field. -/
structure BoxXYWH where
  x : ℚ
  y : ℚ
  w : ℚ
  h : ℚ
deriving DecidableEq, Repr

/-- One serialized detection as produced by `_result_to_dict`; box fields
are optional because each mode populates only some of them. -/
structure Detection where
  class_id : ℤ
  class_name : String
  confidence : ℚ
  box_xyxy : Option BoxXYXY := none
  box_xywh : Option BoxXYWH := none
  box_norm_xywh : Option BoxXYWH := none
deriving DecidableEq, Repr

/-- The result payload dictionary: image dimensions plus the detections.
The `speed_ms` passthrough field is irrelevant to every claim and omitted. -/
structure Payload where
  width : ℕ
  height : ℕ
  detections : List Detection
deriving DecidableEq, Repr

/-- One raw model box as read off the ultralytics result tensors: the
`xyxy` row, confidence, class index, and the model-normalized `xywhn` row. -/
structure RawBox where
  x1 : ℚ
  y1 : ℚ
  x2 : ℚ
  y2 : ℚ
  conf : ℚ
  cls : ℤ
  nx : ℚ
  ny : ℚ
  nw : ℚ
  nh : ℚ
deriving DecidableEq, Repr

/-- Embedding of `_result_to_dict(res, normalize)`.  `names` is the model
class table `_names`; an unmapped class id falls back to its string form.
In normalized mode only `box_norm_xywh` is populated (from the model
`xywhn` output); otherwise both `box_xyxy` and `box_xywh` are populated,
with `box_xywh` built as `x = x1, y = y1, w = x2 - x1, h = y2 - y1`. -/
def result_to_dict (names : ℤ → Option String) (w h : ℕ) (boxes : List RawBox)
    (normalize : Bool) : Payload :=
  if boxes.isEmpty then ⟨w, h, []⟩
  else if normalize then
    ⟨w, h, boxes.map fun b =>
      { class_id := b.cls
        class_name := (names b.cls).getD (toString b.cls)
        confidence := b.conf
        box_norm_xywh := some ⟨b.nx, b.ny, b.nw, b.nh⟩ }⟩
  else
    ⟨w, h, boxes.map fun b =>
      { class_id := b.cls
        class_name := (names b.cls).getD (toString b.cls)
        confidence := b.conf
        box_xyxy := some ⟨b.x1, b.y1, b.x2, b.y2⟩
        box_xywh := some ⟨b.x1, b.y1, b.x2 - b.x1, b.y2 - b.y1⟩ }⟩

/-- Embedding of `_result_to_dict_normalized(payload)` (app.py 328-341):
for every detection that carries `box_xyxy`, derive the center point and
size from the corners, divide by the recorded image dimensions, and add
the result as `box_norm_xywh`; detections without `box_xyxy` and all
existing fields are left untouched. -/
def result_to_dict_normalized (p : Payload) : Payload :=
  ⟨p.width, p.height, p.detections.map fun det =>
    match det.box_xyxy with
    | some b =>
        let cx := (b.x1 + b.x2) / 2
        let cy := (b.y1 + b.y2) / 2
        let bw := b.x2 - b.x1
        let bh := b.y2 - b.y1
        let nb : BoxXYWH := ⟨cx / (p.width : ℚ), cy / (p.height : ℚ),
                             bw / (p.width : ℚ), bh / (p.height : ℚ)⟩
        { det with box_norm_xywh := some nb }
    | none => det⟩

/-! ## WebSocket protocol (`websocket_detect`, app.py 576-705) -/

/-- Embedding of `_validate_websocket_auth(token)` (app.py 277-280):
with no (truthy) API key configured every token validates; otherwise the
presented token must equal the configured key. -/
def validate_websocket_auth (st : Settings) (token : Option String) : Bool :=
  if !truthyOpt st.API_KEY then true
  else token == st.API_KEY

/-- One reply the server sends on the socket, by its `type` tag. -/
inductive Reply
  | errorMsg (message : String)
  | authSuccess
  | authError
  | frameSkipped
  | detection
  | sceneDescription
deriving DecidableEq, Repr

/-- Outcome of the effectful part of the frame path for one message:
either base64 decoding (or anything after it up to the detection reply)
raises, or detection succeeds and `sceneCount` queued scene-description
results are drained and forwarded afterwards. -/
inductive FrameOutcome
  | decodeFailed
  | ok (sceneCount : ℕ)
deriving DecidableEq, Repr

/-- Environment of one frame message: the streaming queue depth, the
rolling average latency of this connection, and the effectful outcome. -/
structure FrameEnv where
  queueSize : ℕ
  avgLatency : ℚ
  outcome : FrameOutcome
deriving Repr

/-- One parsed JSON client message: its `type`, `token` and `frame`
fields (each possibly absent). -/
structure InJson where
  ty : Option String
  token : Option String
  frameData : Option String
deriving DecidableEq, Repr

/-- An inbound text frame: either text that fails JSON parsing, or a
parsed JSON object. -/
inductive InMsg
  | malformed
  | json (j : InJson)
deriving DecidableEq, Repr

/-- Result of handling one inbound message: the authenticated flag after
the message, the ordered replies sent, whether `_async_predict` ran, and
whether the `frame` branch of the dispatcher was entered at all. -/
structure StepOut where
  authenticated : Bool
  replies : List Reply
  ranPredict : Bool
  enteredFramePath : Bool
deriving DecidableEq, Repr

/-- The body of the `frame` branch (app.py 619-692): a missing or empty
`frame` field raises `No frame data provided` (caught and reported as an
error reply); then the load-shedding check replies `frame_skipped`
without inference; then decoding failure is reported as an error reply;
otherwise inference runs, a `detection` reply is sent, and the pending
scene-description results are forwarded. -/
def handle_frame (st : Settings) (env : FrameEnv) (j : InJson) : List Reply × Bool :=
  if !truthyOpt j.frameData then
    ([.errorMsg "Processing error: No frame data provided"], false)
  else if should_skip_frame st env.avgLatency env.queueSize then
    ([.frameSkipped], false)
  else
    match env.outcome with
    | .decodeFailed => ([.errorMsg "Processing error: Invalid base64 image"], false)
    | .ok sceneCount => (Reply.detection :: List.replicate sceneCount .sceneDescription, true)

/-- Embedding of the per-message dispatch of `websocket_detect`
(app.py 585-692), in source order: malformed JSON replies an error;
an `auth` message while unauthenticated is validated and answered with
`auth_success` or `auth_error`; any other message while a (truthy) API
key is configured and the connection is unauthenticated replies an
`Authentication required` error; a `frame` message runs the frame path;
every remaining message falls through the dispatcher with no reply. -/
def wsStep (st : Settings) (authenticated : Bool) (msg : InMsg) (env : FrameEnv) : StepOut :=
  match msg with
  | .malformed => ⟨authenticated, [.errorMsg "Invalid JSON format"], false, false⟩
  | .json j =>
    if j.ty == some "auth" && !authenticated then
      if validate_websocket_auth st j.token then
        ⟨true, [.authSuccess], false, false⟩
      else
        ⟨false, [.authError], false, false⟩
    else if truthyOpt st.API_KEY && !authenticated then
      ⟨authenticated, [.errorMsg "Authentication required"], false, false⟩
    else if j.ty == some "frame" then
      let r := handle_frame st env j
      ⟨authenticated, r.1, r.2, true⟩
    else
      ⟨authenticated, [], false, false⟩

/-! ## Prompt entity and CRUD API (models.py, app.py 747-818) -/

/-- One row of the `prompts` table (class `Prompt` in models.py).
Timestamps are abstract clock readings. -/
structure PromptRec where
  id : ℕ
  name : String
  content : String
  created_at : ℕ
  updated_at : ℕ
deriving DecidableEq, Repr

/-- The prompt store: the rows of the `prompts` table in insertion order. -/
abbrev Store := List PromptRec

/-- Domain errors raised by the prompt CRUD handlers. -/
inductive ApiError
  | conflict
  | notFound
deriving DecidableEq, Repr

/-- Embedding of `create_prompt` (app.py 766-778): reject with Conflict if
any stored prompt already has the requested name, else insert a fresh row
(id assigned by the store, both timestamps set to the insertion time). -/
def create_prompt (s : Store) (name content : String) (newId now : ℕ) :
    Except ApiError (Store × PromptRec) :=
  if (s.find? fun p => p.name == name).isSome then
    .error .conflict
  else
    let p : PromptRec := ⟨newId, name, content, now, now⟩
    .ok (s ++ [p], p)

/-- Embedding of `update_prompt` (app.py 781-805): look the row up by id
(404 if absent); if a truthy new name is supplied and differs from the
current name, reject with Conflict when any stored prompt already has it,
else apply it; a supplied content (even empty, the code checks
`is not None`) is applied; the updated timestamp refreshes when a column
actually changed (the ORM `onupdate` hook fires only on a real UPDATE). -/
def update_prompt (s : Store) (pid : ℕ) (nameUpd contentUpd : Option String) (now : ℕ) :
    Except ApiError (Store × PromptRec) :=
  match s.find? (fun p => p.id == pid) with
  | none => .error .notFound
  | some p =>
    let newName := nameUpd.getD ""
    let wantName := truthyOpt nameUpd && !(newName == p.name)
    if wantName && (s.find? fun q => q.name == newName).isSome then
      .error .conflict
    else
      let name1 := if wantName then newName else p.name
      let content1 := contentUpd.getD p.content
      let changed := wantName || (contentUpd.isSome && !(content1 == p.content))
      let p1 : PromptRec := ⟨p.id, name1, content1, p.created_at,
                             if changed then now else p.updated_at⟩
      .ok (s.map fun q => if q.id == pid then p1 else q, p1)

/-- Embedding of `delete_prompt` (app.py 808-818): look the row up by id
(404 if absent) and remove it. -/
def delete_prompt (s : Store) (pid : ℕ) : Except ApiError Store :=
  match s.find? (fun p => p.id == pid) with
  | none => .error .notFound
  | some _ => .ok (s.filter fun p => !(p.id == pid))

/-- The name-uniqueness invariant of the `prompts` table: no two stored
rows share a name. -/
def namesUnique (s : Store) : Prop :=
  (s.map PromptRec.name).Nodup

/-- Primary-key uniqueness, guaranteed by the store (`id` is the
auto-incrementing primary key). -/
def idsUnique (s : Store) : Prop :=
  (s.map PromptRec.id).Nodup

/-! ## Database seeding utility (init_prompts.py 203-228) -/

/-- Stands in for the large fixed instruction document that
init_prompts.py seeds as the default prompt content.  Every claim about
the seeding routine depends only on the seeded name and the row count,
never on this text, so its exact bytes are not reproduced here. -/
def DEFAULT_PROMPT_CONTENT : String :=
  "Phone Storage Assistant instruction document"

/-- Embedding of `init_default_prompts()` (init_prompts.py 203-228): count
the stored prompt rows; if zero, insert the single default prompt named
Phone Storage Assistant (id and timestamps assigned by the store),
otherwise change nothing. -/
def init_default_prompts (s : Store) (newId now : ℕ) : Store :=
  if s.length == 0 then
    s ++ [⟨newId, "Phone Storage Assistant", DEFAULT_PROMPT_CONTENT, now, now⟩]
  else
    s

/-! ## Structured detect endpoint: image source selection (app.py 484-494) -/

/-- The image source the `/detect` handler ends up loading from. -/
inductive ImgSrc
  | b64 (payload : String)
  | url (address : String)
deriving DecidableEq, Repr

/-- Embedding of the source-selection prefix of `detect_json`
(app.py 488-494): reply 400 when neither a truthy `image_base64` nor an
`image_url` is present; otherwise use the base64 payload when it is
truthy, and fetch the URL only when it is not.  `image_url` is a parsed
`HttpUrl` object, so its mere presence is truthy. -/
def detect_select_image (image_base64 : Option String) (image_url : Option String) :
    Except String ImgSrc :=
  if !truthyOpt image_base64 && !image_url.isSome then
    .error "Provide image_base64 or image_url"
  else if truthyOpt image_base64 then
    .ok (.b64 (image_base64.getD ""))
  else
    .ok (.url (image_url.getD ""))

/-! ## Concrete fixtures used by witnesses and counterexamples -/

/-- Class table mapping nothing, so every class name falls back to the
stringified id, as in `_names.get(cls, str(cls))`. -/
def noNames : ℤ → Option String := fun _ => none

/-- One raw model box with corners (10,20)-(110,220). -/
def rawBoxA : RawBox := ⟨10, 20, 110, 220, 9/10, 0, 0, 0, 0, 0⟩

/-- The detection `result_to_dict` produces from `rawBoxA` in
denormalized mode. -/
def detFromRawA : Detection :=
  { class_id := 0, class_name := "0", confidence := 9/10,
    box_xyxy := some ⟨10, 20, 110, 220⟩, box_xywh := some ⟨10, 20, 100, 200⟩ }

/-- A detection carrying the corner box (10,10,110,210) of claim C7. -/
def detA : Detection :=
  { class_id := 0, class_name := "person", confidence := 9/10,
    box_xyxy := some ⟨10, 10, 110, 210⟩ }

/-- A result payload on a 200 by 200 image holding `detA`. -/
def payloadA : Payload := ⟨200, 200, [detA]⟩

/-- Settings with a bearer token configured. -/
def settingsTok : Settings := { API_KEY := some "secret-key" }

/-- A frame message carrying base64 data. -/
def frameMsg : InJson := ⟨some "frame", none, some "QUJD"⟩

/-- An auth message carrying the correct token for `settingsTok`. -/
def authMsgOk : InJson := ⟨some "auth", some "secret-key", none⟩

/-- A valid JSON message of an unknown type. -/
def pingMsg : InJson := ⟨some "ping", none, none⟩

/-- A benign frame environment: empty queue, zero latency, detection
succeeds, no pending scene descriptions. -/
def envOk : FrameEnv := ⟨0, 0, .ok 0⟩

/-- A stored prompt named A. -/
def promptA : PromptRec := ⟨1, "A", "alpha", 0, 0⟩

/-- A stored prompt named B. -/
def promptB : PromptRec := ⟨2, "B", "beta", 0, 0⟩

/-! ## Claim theorems -/

/-- C1: the code disagrees with the claim.  Evaluating
`_update_performance_stats` on the claim scenario (one dropped frame
recorded with latency 0, then one processed frame with latency 40 ms)
yields `total_frames = 2` and `dropped_frames = 1` as claimed, but
`avg_latency = 20`, not 40: the incremental average divides by the total
frame count including dropped frames, so a preceding dropped frame does
affect the average. -/
theorem C1_perf_counters_code_eval :
    (update_performance_stats (update_performance_stats performanceStatsInit 0 true) 40 false).total_frames = 2 ∧
    (update_performance_stats (update_performance_stats performanceStatsInit 0 true) 40 false).dropped_frames = 1 ∧
    (update_performance_stats (update_performance_stats performanceStatsInit 0 true) 40 false).avg_latency = 20 ∧
    (update_performance_stats (update_performance_stats performanceStatsInit 0 true) 40 false).avg_latency ≠ 40 := by
  refine ⟨rfl, rfl, ?_, ?_⟩ <;>
    norm_num [update_performance_stats, performanceStatsInit]

/-- C3 (counterexample): on a fresh sampler with interval 1.0 the claim
says `add_frame` at t = 0.0 is accepted; the constructor initializes the
last-sample time to 0, so 0.0 - 0 < 1.0 and the frame is rejected, with
nothing stored. -/
theorem C3_counterexample :
    ((FrameSampler.init ℕ 1).add_frame 7 0).1 = false ∧
    ((FrameSampler.init ℕ 1).add_frame 7 0).2.collected_frames = [] := by
  constructor <;>
    norm_num [FrameSampler.add_frame, FrameSampler.should_sample, FrameSampler.init]

/-- C3 (amended): a frame is accepted iff its timestamp minus the
last-sample timestamp is at least the interval; an accepted frame stores
the image copy with its timestamp and advances the last-sample time, a
rejected frame changes nothing.  On a fresh sampler with interval 1.0,
`add_frame` at t = 0.0 and t = 0.5 are rejected (the initial last-sample
time is 0) and `add_frame` at t = 1.2 is accepted. -/
theorem C3_frame_sampler_amended :
    (∀ (Img : Type) (s : FrameSampler Img) (img : Img) (t : ℚ),
        ((s.add_frame img t).1 = true ↔ t - s.last_sample_time ≥ s.interval) ∧
        ((s.add_frame img t).1 = true →
          (s.add_frame img t).2
            = { s with collected_frames := s.collected_frames ++ [(img, t)],
                       last_sample_time := t }) ∧
        ((s.add_frame img t).1 = false → (s.add_frame img t).2 = s)) ∧
    (((FrameSampler.init ℕ 1).add_frame 7 0).1 = false ∧
     ((FrameSampler.init ℕ 1).add_frame 7 (1/2)).1 = false ∧
     ((FrameSampler.init ℕ 1).add_frame 7 (6/5)).1 = true ∧
     ((FrameSampler.init ℕ 1).add_frame 7 (6/5)).2.last_sample_time = 6/5) := by
  constructor
  · intro Img s img t
    by_cases h : t - s.last_sample_time ≥ s.interval <;>
      simp [FrameSampler.add_frame, FrameSampler.should_sample, h]
  · refine ⟨?_, ?_, ?_, ?_⟩ <;>
      norm_num [FrameSampler.add_frame, FrameSampler.should_sample, FrameSampler.init]

/-- C3 (witness): the accepted call at t = 1.2 on the fresh sampler,
through the amended theorem. -/
theorem C3_witness :
    ((FrameSampler.init ℕ 1).add_frame 7 (6/5)).2
      = { (FrameSampler.init ℕ 1) with
            collected_frames := (FrameSampler.init ℕ 1).collected_frames ++ [(7, 6/5)],
            last_sample_time := 6/5 } :=
  (C3_frame_sampler_amended.1 ℕ (FrameSampler.init ℕ 1) 7 (6/5)).2.1
    (by norm_num [FrameSampler.add_frame, FrameSampler.should_sample, FrameSampler.init])

/-- C5: the load-shedding decision skips a frame iff the queue depth
exceeds 80 percent of the configured maximum queue size or the rolling
average latency exceeds the configured threshold; with the defaults the
queue threshold is exactly 24, so queue 25 skips regardless of latency,
queue 10 with latency 150 skips, and queue 10 with latency 50 does not. -/
theorem C5_should_skip_frame :
    (∀ lat : ℚ, should_skip_frame settings lat 25 = true) ∧
    should_skip_frame settings 150 10 = true ∧
    should_skip_frame settings 50 10 = false ∧
    (settings.MAX_FRAME_QUEUE : ℚ) * (4/5) = 24 ∧
    (∀ (st : Settings) (lat : ℚ) (q : ℕ),
        should_skip_frame st lat q = true ↔
          ((q : ℚ) > (st.MAX_FRAME_QUEUE : ℚ) * (4/5) ∨ lat > st.FRAME_SKIP_THRESHOLD)) := by
  refine ⟨?_, by norm_num [should_skip_frame, settings], by norm_num [should_skip_frame, settings],
    by norm_num [settings], ?_⟩
  · intro lat
    norm_num [should_skip_frame, settings]
  · intro st lat q
    unfold should_skip_frame
    split_ifs with h1 h2 <;> simp_all

/-- C9: the seeding routine run on an empty store inserts exactly one
prompt, named Phone Storage Assistant; run on any non-empty store it
inserts nothing; hence after two runs on an empty store the count is 1. -/
theorem C9_seeding_idempotent :
    (∀ i t : ℕ, (init_default_prompts [] i t).map PromptRec.name = ["Phone Storage Assistant"] ∧
                (init_default_prompts [] i t).length = 1) ∧
    (∀ (s : Store) (i t : ℕ), s ≠ [] → init_default_prompts s i t = s) ∧
    (∀ i t i2 t2 : ℕ, (init_default_prompts (init_default_prompts [] i t) i2 t2).length = 1) := by
  refine ⟨fun i t => ⟨rfl, rfl⟩, ?_, fun i t i2 t2 => rfl⟩
  intro s i t hs
  simp [init_default_prompts, List.length_eq_zero, hs]

/-- C9 (witness): the second run on the store produced by the first run
inserts nothing, through the theorem. -/
theorem C9_witness :
    init_default_prompts [promptA] 5 9 = [promptA] :=
  C9_seeding_idempotent.2.1 [promptA] 5 9 (by simp)

/-- C10 (counterexample): a request supplying both fields, with
`image_base64` set to the empty string and a URL present, is not handled
as the claim states: the empty base64 is treated as missing and the URL
branch is taken, so the URL is fetched.  Likewise the 400 fires on a
request whose `image_base64` field is present but empty with no URL,
not only when both fields are absent. -/
theorem C10_counterexample :
    detect_select_image (some "") (some "http://cam.example/a.jpg")
      = .ok (.url "http://cam.example/a.jpg") ∧
    detect_select_image (some "") none = .error "Provide image_base64 or image_url" :=
  ⟨rfl, rfl⟩

/-- C10 (amended): a request supplying a non-empty base64 image is never
rejected, the base64 source is used, and the URL is never fetched,
whatever the URL field holds; when the base64 field is absent or empty
and a URL is present, the URL is used; the 400 fires exactly when the
base64 field is absent or empty and the URL is absent. -/
theorem C10_detect_source_amended :
    (∀ (b : String) (u : Option String), b ≠ "" →
        detect_select_image (some b) u = .ok (.b64 b)) ∧
    (∀ u : String, detect_select_image none (some u) = .ok (.url u) ∧
                   detect_select_image (some "") (some u) = .ok (.url u)) ∧
    (∀ (b4 u : Option String),
        detect_select_image b4 u = .error "Provide image_base64 or image_url" ↔
          (truthyOpt b4 = false ∧ u = none)) := by
  refine ⟨?_, fun u => ⟨rfl, rfl⟩, ?_⟩
  · intro b u hb
    simp [detect_select_image, truthyOpt, hb]
  · intro b4 u
    unfold detect_select_image
    split_ifs with h1 h2 <;> simp_all

/-- C10 (witness): a request with a non-empty base64 payload and a URL
uses the base64 source, through the amended theorem. -/
theorem C10_witness :
    detect_select_image (some "QUJD") (some "http://cam.example/a.jpg")
      = .ok (.b64 "QUJD") :=
  C10_detect_source_amended.1 "QUJD" (some "http://cam.example/a.jpg") (by decide)

/-- C2 (counterexample): in the denormalized result for the raw box with
corners (10,20)-(110,220), the `box_xywh` field is (10, 20, 100, 200):
its x and y are the top-left corner x1, y1, not the box center
(60, 120) the claim requires. -/
theorem C2_counterexample :
    (result_to_dict noNames 300 300 [rawBoxA] false).detections.map Detection.box_xywh
      = [some ⟨10, 20, 100, 200⟩] ∧
    (result_to_dict noNames 300 300 [rawBoxA] false).detections.map Detection.box_xywh
      ≠ [some ⟨60, 120, 100, 200⟩] := by
  constructor <;> norm_num [result_to_dict, rawBoxA, noNames]

/-- C2 (amended): in the denormalized result every detection carries the
bounding box in two absolute forms, corner form `box_xyxy` =
(x1,y1,x2,y2) and size form `box_xywh` with x = x1 and y = y1 (the
top-left corner, not the center), w = x2 - x1 and h = y2 - y1; the
normalized field is not populated. -/
theorem C2_boxes_amended :
    ∀ (names : ℤ → Option String) (w h : ℕ) (boxes : List RawBox) (d : Detection),
      d ∈ (result_to_dict names w h boxes false).detections →
      ∃ b ∈ boxes,
        d.box_xyxy = some ⟨b.x1, b.y1, b.x2, b.y2⟩ ∧
        d.box_xywh = some ⟨b.x1, b.y1, b.x2 - b.x1, b.y2 - b.y1⟩ ∧
        d.box_norm_xywh = none := by
  intro names w h boxes d hd
  cases hbe : boxes.isEmpty with
  | true => simp [result_to_dict, hbe] at hd
  | false =>
    simp only [result_to_dict, hbe, Bool.false_eq_true, if_false] at hd
    obtain ⟨b, hbm, rfl⟩ := List.mem_map.mp hd
    exact ⟨b, hbm, rfl, rfl, rfl⟩

/-- C2 (witness): the detection produced from `rawBoxA`, through the
amended theorem. -/
theorem C2_witness :
    ∃ b ∈ [rawBoxA],
      detFromRawA.box_xyxy = some ⟨b.x1, b.y1, b.x2, b.y2⟩ ∧
      detFromRawA.box_xywh = some ⟨b.x1, b.y1, b.x2 - b.x1, b.y2 - b.y1⟩ ∧
      detFromRawA.box_norm_xywh = none :=
  C2_boxes_amended noNames 300 300 [rawBoxA] detFromRawA
    (by norm_num [result_to_dict, rawBoxA, noNames, detFromRawA]; rfl)

/-- C7: post-hoc normalization adds to each detection carrying a corner
box the normalized center-size box obtained by halving the corner sums
and dividing by the image dimensions, leaves every other field of every
detection unchanged (both representations coexist), and preserves the
image dimensions; for the corner box (10,10,110,210) on a 200 by 200
image the derived normalized box is (0.3, 0.55, 0.5, 1.0). -/
theorem C7_posthoc_normalization :
    (∀ (p : Payload) (d : Detection) (b : BoxXYXY),
        d ∈ p.detections → d.box_xyxy = some b →
        { d with box_norm_xywh := some ⟨((b.x1 + b.x2) / 2) / (p.width : ℚ),
                                        ((b.y1 + b.y2) / 2) / (p.height : ℚ),
                                        (b.x2 - b.x1) / (p.width : ℚ),
                                        (b.y2 - b.y1) / (p.height : ℚ)⟩ }
          ∈ (result_to_dict_normalized p).detections) ∧
    (∀ (p : Payload) (d1 : Detection), d1 ∈ (result_to_dict_normalized p).detections →
        ∃ d ∈ p.detections, d1.box_xyxy = d.box_xyxy ∧ d1.box_xywh = d.box_xywh ∧
          d1.class_id = d.class_id ∧ d1.class_name = d.class_name ∧
          d1.confidence = d.confidence) ∧
    (∀ p : Payload, (result_to_dict_normalized p).width = p.width ∧
                    (result_to_dict_normalized p).height = p.height) ∧
    (result_to_dict_normalized payloadA).detections
      = [{ detA with box_norm_xywh := some ⟨3/10, 11/20, 1/2, 1⟩ }] := by
  refine ⟨?_, ?_, fun p => ⟨rfl, rfl⟩, ?_⟩
  · intro p d b hd hb
    obtain ⟨w, h, dets⟩ := p
    refine List.mem_map.mpr ⟨d, hd, ?_⟩
    simp [hb]
  · intro p d1 hd1
    obtain ⟨w, h, dets⟩ := p
    simp only [result_to_dict_normalized] at hd1
    obtain ⟨d, hd, rfl⟩ := List.mem_map.mp hd1
    refine ⟨d, hd, ?_⟩
    cases hbx : d.box_xyxy <;> simp [hbx]
  · norm_num [result_to_dict_normalized, payloadA, detA]

/-- C7 (witness): the normalized box derived for `detA` on the 200 by 200
image, through the theorem. -/
theorem C7_witness :
    { detA with box_norm_xywh := some ⟨((10 + 110 : ℚ) / 2) / ((200 : ℕ) : ℚ),
                                       ((10 + 210 : ℚ) / 2) / ((200 : ℕ) : ℚ),
                                       ((110 : ℚ) - 10) / ((200 : ℕ) : ℚ),
                                       ((210 : ℚ) - 10) / ((200 : ℕ) : ℚ)⟩ }
      ∈ (result_to_dict_normalized payloadA).detections :=
  C7_posthoc_normalization.1 payloadA detA ⟨10, 10, 110, 210⟩ (by simp [payloadA]) rfl

/-- Every branch of the frame path sends at least one reply: a missing
frame field, a skipped frame and a decode failure each send exactly one,
and a successful detection sends the detection reply first. -/
theorem handle_frame_replies_ne_nil (st : Settings) (env : FrameEnv) (j : InJson) :
    (handle_frame st env j).1 ≠ [] := by
  unfold handle_frame
  split_ifs <;> try simp
  cases env.outcome <;> simp

/-- C6: with a bearer token configured, nothing is ever detected and the
frame path is never entered while the connection is unauthenticated; a
frame message sent before authentication gets exactly one error reply
and leaves the connection unauthenticated; an auth message with the
correct token gets auth_success and authenticates the connection, after
which frame messages enter the frame path; with no token configured a
frame message enters the frame path immediately, with no auth exchange. -/
theorem C6_ws_auth_gate :
    (∀ (st : Settings) (k : String) (msg : InMsg) (env : FrameEnv),
        st.API_KEY = some k → k ≠ "" →
        (wsStep st false msg env).ranPredict = false ∧
        (wsStep st false msg env).enteredFramePath = false) ∧
    (∀ (st : Settings) (k : String) (j : InJson) (env : FrameEnv),
        st.API_KEY = some k → k ≠ "" → j.ty = some "frame" →
        wsStep st false (.json j) env
          = ⟨false, [.errorMsg "Authentication required"], false, false⟩) ∧
    (∀ (st : Settings) (k : String) (j : InJson) (env : FrameEnv),
        st.API_KEY = some k → k ≠ "" → j.ty = some "auth" → j.token = some k →
        wsStep st false (.json j) env = ⟨true, [.authSuccess], false, false⟩) ∧
    (∀ (st : Settings) (j : InJson) (env : FrameEnv),
        j.ty = some "frame" →
        (wsStep st true (.json j) env).enteredFramePath = true) ∧
    (∀ (st : Settings) (j : InJson) (env : FrameEnv),
        st.API_KEY = none → j.ty = some "frame" →
        (wsStep st false (.json j) env).enteredFramePath = true) := by
  refine ⟨?_, ?_, ?_, ?_, ?_⟩
  · intro st k msg env hkey hk
    have hbeq : (k == "") = false := beq_eq_false_iff_ne.mpr hk
    cases msg with
    | malformed => exact ⟨rfl, rfl⟩
    | json j =>
      cases hty : (j.ty == some "auth") with
      | true =>
        cases hv : validate_websocket_auth st j.token <;>
          simp [wsStep, hty, hv]
      | false =>
        simp [wsStep, hty, hkey, truthyOpt, hbeq]
  · intro st k j env hkey hk hty
    have hbeq : (k == "") = false := beq_eq_false_iff_ne.mpr hk
    simp [wsStep, hty, hkey, truthyOpt, hbeq]
  · intro st k j env hkey hk hty htok
    have hbeq : (k == "") = false := beq_eq_false_iff_ne.mpr hk
    simp [wsStep, hty, htok, validate_websocket_auth, hkey, truthyOpt, hbeq]
  · intro st j env hty
    simp [wsStep, hty]
  · intro st j env hnone hty
    simp [wsStep, hty, hnone, truthyOpt]

/-- C6 (witness): the three auth-gate scenarios on concrete settings and
messages, through the theorem. -/
theorem C6_witness :
    wsStep settingsTok false (.json frameMsg) envOk
      = ⟨false, [.errorMsg "Authentication required"], false, false⟩ ∧
    wsStep settingsTok false (.json authMsgOk) envOk = ⟨true, [.authSuccess], false, false⟩ ∧
    (wsStep settingsTok true (.json frameMsg) envOk).enteredFramePath = true ∧
    (wsStep settings false (.json frameMsg) envOk).enteredFramePath = true :=
  ⟨C6_ws_auth_gate.2.1 settingsTok "secret-key" frameMsg envOk rfl (by decide) rfl,
   C6_ws_auth_gate.2.2.1 settingsTok "secret-key" authMsgOk envOk rfl (by decide) rfl rfl,
   C6_ws_auth_gate.2.2.2.1 settingsTok frameMsg envOk rfl,
   C6_ws_auth_gate.2.2.2.2 settings frameMsg envOk rfl rfl⟩

/-- C4 (counterexample): a message that parses as valid JSON but has the
unknown type ping, received while no token is configured, falls through
every dispatcher branch and gets no reply at all, contradicting the
claim that every valid JSON client message receives at least one
explanatory reply. -/
theorem C4_counterexample :
    (wsStep settings false (.json pingMsg) envOk).replies = [] := rfl

/-- C4 (amended): an inbound message gets at least one reply whenever it
is malformed JSON, or is an auth message on an unauthenticated
connection, or arrives while unauthenticated with a token configured, or
has type frame; valid JSON messages of any other kind (unknown types, or
auth messages after authentication) are silently ignored, in addition to
the documented best-effort loss of scene-description deliveries. -/
theorem C4_replies_amended :
    ∀ (st : Settings) (auth : Bool) (msg : InMsg) (env : FrameEnv),
      (msg = .malformed ∨
       (∃ j, msg = .json j ∧ j.ty = some "auth" ∧ auth = false) ∨
       (truthyOpt st.API_KEY = true ∧ auth = false) ∨
       (∃ j, msg = .json j ∧ j.ty = some "frame")) →
      (wsStep st auth msg env).replies ≠ [] := by
  intro st auth msg env hcond
  cases msg with
  | malformed => simp [wsStep]
  | json j =>
    rcases hcond with h | ⟨j2, hj, hty, hauth⟩ | ⟨hk, hauth⟩ | ⟨j2, hj, hty⟩
    · exact absurd h (by simp)
    · injection hj with hjj
      subst hjj
      subst hauth
      cases hv : validate_websocket_auth st j.token <;>
        simp [wsStep, hty, hv]
    · subst hauth
      cases hty : (j.ty == some "auth") with
      | true =>
        cases hv : validate_websocket_auth st j.token <;>
          simp [wsStep, hty, hv]
      | false => simp [wsStep, hty, hk]
    · injection hj with hjj
      subst hjj
      simp only [wsStep]
      split_ifs with h1 h2 h3 h4
      · simp
      · simp
      · simp
      · exact handle_frame_replies_ne_nil st env j
      · exact absurd (by simp [hty]) h4

/-- C4 (witness): a malformed JSON message always gets a reply, through
the amended theorem. -/
theorem C4_witness :
    (wsStep settings false .malformed envOk).replies ≠ [] :=
  C4_replies_amended settings false .malformed envOk (Or.inl rfl)

/-- Name uniqueness restated as pairwise distinctness of the records. -/
theorem namesUnique_iff_pairwise (s : Store) :
    namesUnique s ↔ s.Pairwise fun a b => a.name ≠ b.name := by
  simp [namesUnique, List.Nodup, List.pairwise_map]

/-- Id uniqueness restated as pairwise distinctness of the records. -/
theorem idsUnique_iff_pairwise (s : Store) :
    idsUnique s ↔ s.Pairwise fun a b => a.id ≠ b.id := by
  simp [idsUnique, List.Nodup, List.pairwise_map]

/-- Replacing the row with a given primary key by a row whose name is
either the replaced name or fresh in the whole store preserves name
uniqueness.  This is the list form of the UPDATE the CRUD layer issues. -/
theorem namesUnique_map_replace (s : Store) (pid : ℕ) (p p1 : PromptRec)
    (hn : namesUnique s) (hi : idsUnique s) (hpmem : p ∈ s) (hpid : p.id = pid)
    (hcase : p1.name = p.name ∨ ∀ q ∈ s, q.name ≠ p1.name) :
    namesUnique (s.map fun q => if q.id == pid then p1 else q) := by
  have hnp : s.Pairwise fun a b => a.name ≠ b.name := (namesUnique_iff_pairwise s).mp hn
  have hip : s.Pairwise fun a b => a.id ≠ b.id := (idsUnique_iff_pairwise s).mp hi
  have key : s.Pairwise fun a b =>
      (if a.id == pid then p1 else a).name ≠ (if b.id == pid then p1 else b).name := by
    refine (hnp.and hip).imp_of_mem ?_
    intro a b ha hb hab
    obtain ⟨habn, habi⟩ := hab
    by_cases haid : (a.id == pid) = true <;> by_cases hbid : (b.id == pid) = true
    · exact absurd ((by simpa using haid : a.id = pid).trans
        (by simpa using hbid : b.id = pid).symm) habi
    · simp only [haid, hbid, if_true, if_false, Bool.false_eq_true]
      rcases hcase with hsame | hall
      · have hap : a = p := List.inj_on_of_nodup_map hi ha hpmem
          (by rw [(by simpa using haid : a.id = pid), hpid])
        rw [hsame, ← hap]
        exact habn
      · exact fun hc => (hall b hb) hc.symm
    · simp only [haid, hbid, if_true, if_false, Bool.false_eq_true]
      rcases hcase with hsame | hall
      · have hbp : b = p := List.inj_on_of_nodup_map hi hb hpmem
          (by rw [(by simpa using hbid : b.id = pid), hpid])
        rw [hsame, ← hbp]
        exact habn
      · exact hall a ha
    · simpa [haid, hbid] using habn
  simpa [namesUnique, List.Nodup, List.map_map, List.pairwise_map] using key

/-- A successful create preserves name uniqueness: the pre-check
guarantees the inserted name is absent from the store. -/
theorem create_prompt_preserves_namesUnique (s : Store) (n c : String) (i t : ℕ)
    (s1 : Store) (r : PromptRec) (hn : namesUnique s)
    (h : create_prompt s n c i t = .ok (s1, r)) : namesUnique s1 := by
  unfold create_prompt at h
  by_cases hf : ((s.find? fun p => p.name == n).isSome) = true
  · simp [hf] at h
  · simp only [hf, Bool.false_eq_true, if_false, Except.ok.injEq, Prod.mk.injEq] at h
    obtain ⟨rfl, -⟩ := h
    rw [namesUnique, List.map_append, List.nodup_append]
    refine ⟨hn, List.nodup_singleton n, fun a ha hb => ?_⟩
    rw [List.map_singleton, List.mem_singleton] at hb
    subst hb
    obtain ⟨p, hp, hpn⟩ := List.mem_map.mp ha
    exact hf (List.find?_isSome.mpr ⟨p, hp, by simp [hpn]⟩)

/-- A successful update preserves name uniqueness, given primary-key
uniqueness of the store: either the name is unchanged or the pre-check
guarantees the new name is absent from the whole store. -/
theorem update_prompt_preserves_namesUnique (s : Store) (pid : ℕ)
    (nU cU : Option String) (t : ℕ) (s1 : Store) (r : PromptRec)
    (hn : namesUnique s) (hi : idsUnique s)
    (h : update_prompt s pid nU cU t = .ok (s1, r)) : namesUnique s1 := by
  unfold update_prompt at h
  cases hfind : s.find? (fun p => p.id == pid) with
  | none => simp [hfind] at h
  | some p =>
    simp only [hfind] at h
    by_cases hconf : ((truthyOpt nU && !(nU.getD "" == p.name)) &&
        (s.find? fun q => q.name == nU.getD "").isSome) = true
    · simp [hconf] at h
    · simp only [hconf, Bool.false_eq_true, if_false, Except.ok.injEq, Prod.mk.injEq] at h
      obtain ⟨rfl, -⟩ := h
      refine namesUnique_map_replace s pid p _ hn hi (List.mem_of_find?_eq_some hfind)
        (by simpa using List.find?_some hfind) ?_
      by_cases hw : (truthyOpt nU && !(nU.getD "" == p.name)) = true
      · right
        have hfn : (s.find? fun q => q.name == nU.getD "") = none := by
          cases hfc : s.find? (fun q => q.name == nU.getD "") with
          | none => rfl
          | some q => exact absurd (by simp [hw, hfc]) hconf
        intro q hq
        have hnq := List.find?_eq_none.mp hfn q hq
        simp only [hw, if_true]
        simpa using hnq
      · left
        simp [hw]

/-- A successful delete preserves name uniqueness: the remaining names
form a sublist of the original names. -/
theorem delete_prompt_preserves_namesUnique (s : Store) (pid : ℕ) (s1 : Store)
    (hn : namesUnique s) (h : delete_prompt s pid = .ok s1) : namesUnique s1 := by
  unfold delete_prompt at h
  cases hfind : s.find? (fun p => p.id == pid) with
  | none => simp [hfind] at h
  | some p =>
    simp only [hfind, Except.ok.injEq] at h
    subst h
    exact ((List.filter_sublist s).map PromptRec.name).nodup hn

/-- C8: creating a prompt whose name a stored prompt already holds fails
with Conflict, while the first create of a fresh name succeeds and
inserts it; updating a prompt to a non-empty name held by some stored
prompt other than its own fails with Conflict; updating a prompt to its
own current name succeeds and is a no-op; and every successful create,
update or delete preserves the invariant that no two stored prompts
share a name (update additionally assumes primary-key uniqueness, which
the store guarantees). -/
theorem C8_prompt_name_uniqueness :
    (∀ (s : Store) (n c : String) (i t : ℕ),
        (∃ p ∈ s, p.name = n) → create_prompt s n c i t = .error .conflict) ∧
    (∀ (s : Store) (n c : String) (i t : ℕ),
        (∀ p ∈ s, p.name ≠ n) →
        create_prompt s n c i t = .ok (s ++ [⟨i, n, c, t, t⟩], ⟨i, n, c, t, t⟩)) ∧
    (∀ (s : Store) (pid t : ℕ) (n : String) (cU : Option String) (p q : PromptRec),
        s.find? (fun r => r.id == pid) = some p → n ≠ "" → n ≠ p.name →
        q ∈ s → q.name = n →
        update_prompt s pid (some n) cU t = .error .conflict) ∧
    (∀ (s : Store) (pid t : ℕ) (p : PromptRec),
        s.find? (fun r => r.id == pid) = some p → idsUnique s →
        update_prompt s pid (some p.name) none t = .ok (s, p)) ∧
    (∀ (s : Store) (n c : String) (i t : ℕ) (s1 : Store) (r : PromptRec),
        namesUnique s → create_prompt s n c i t = .ok (s1, r) → namesUnique s1) ∧
    (∀ (s : Store) (pid : ℕ) (nU cU : Option String) (t : ℕ) (s1 : Store) (r : PromptRec),
        namesUnique s → idsUnique s → update_prompt s pid nU cU t = .ok (s1, r) →
        namesUnique s1) ∧
    (∀ (s : Store) (pid : ℕ) (s1 : Store),
        namesUnique s → delete_prompt s pid = .ok s1 → namesUnique s1) := by
  refine ⟨?_, ?_, ?_, ?_,
    fun s n c i t s1 r hn h => create_prompt_preserves_namesUnique s n c i t s1 r hn h,
    fun s pid nU cU t s1 r hn hi h =>
      update_prompt_preserves_namesUnique s pid nU cU t s1 r hn hi h,
    fun s pid s1 hn h => delete_prompt_preserves_namesUnique s pid s1 hn h⟩
  · intro s n c i t hex
    obtain ⟨p, hp, hpn⟩ := hex
    have hf : ((s.find? fun p2 => p2.name == n).isSome) = true :=
      List.find?_isSome.mpr ⟨p, hp, by simp [hpn]⟩
    simp [create_prompt, hf]
  · intro s n c i t hall
    have hf : (s.find? fun p => p.name == n) = none :=
      List.find?_eq_none.mpr fun p hp => by simp [hall p hp]
    simp [create_prompt, hf]
  · intro s pid t n cU p q hfind hne hnp hq hqn
    have hfs : ((s.find? fun r => r.name == n).isSome) = true :=
      List.find?_isSome.mpr ⟨q, hq, by simp [hqn]⟩
    simp [update_prompt, hfind, truthyOpt, hne, hnp, hfs]
  · intro s pid t p hfind hids
    have hpmem := List.mem_of_find?_eq_some hfind
    have hpid : p.id = pid := by simpa using List.find?_some hfind
    have hmap : (s.map fun q => if q.id = pid then p else q) = s := by
      have hcongr : ∀ q ∈ s, (if q.id = pid then p else q) = q := by
        intro q hq
        by_cases hqid : q.id = pid
        · have : q = p := List.inj_on_of_nodup_map hids hq hpmem (by rw [hqid, hpid])
          simp [hqid, this]
        · simp [hqid]
      calc s.map (fun q => if q.id = pid then p else q)
          = s.map id := List.map_congr_left fun q hq => hcongr q hq
        _ = s := List.map_id s
    simp [update_prompt, hfind, truthyOpt]
    exact hmap

/-- C8 (witness): on the concrete store holding prompts A and B, a second
create of A conflicts, renaming B to A conflicts, and renaming A to its
own name succeeds unchanged, through the theorem. -/
theorem C8_witness :
    create_prompt [promptA, promptB] "A" "x" 3 5 = .error .conflict ∧
    update_prompt [promptA, promptB] 2 (some "A") none 7 = .error .conflict ∧
    update_prompt [promptA, promptB] 1 (some promptA.name) none 7
      = .ok ([promptA, promptB], promptA) :=
  ⟨C8_prompt_name_uniqueness.1 [promptA, promptB] "A" "x" 3 5 ⟨promptA, by simp, rfl⟩,
   C8_prompt_name_uniqueness.2.2.1 [promptA, promptB] 2 7 "A" none promptB promptA
     rfl (by decide) (by decide) (by simp) rfl,
   C8_prompt_name_uniqueness.2.2.2.1 [promptA, promptB] 1 7 promptA rfl
     (by simp [idsUnique, promptA, promptB])⟩
